import Mathlib

/-!
Shallow embedding of the Facial-Expression-Detection repository
(`python files/Utils.py` and `python files/main.py`) and proofs of the
specification claims about it.

Conventions of the embedding:
* Python strings are `String`; where a claim needs to inspect the
  character structure of a built string (connection strings, SQL
  statements) we work over `List Char`.
* A pandas `DataFrame` is a list of column names plus a list of rows,
  each row a list of cells (cells are kept abstract as `String`).
* A pyodbc connection is identified with the connection string it was
  opened with; the observable driver activity of a call is recorded as a
  trace of `DbEvent`s.
* A Python function that can raise is embedded returning `Except String`
  (the error string names the exception), or a trace paired with an
  outcome when the claim is about which effects happen before a raise.
* `sys.exit` is a distinguished `LoadOutcome.exit` constructor.
-/

-- ===================== Data model =====================

/-- A pandas DataFrame: ordered column names and rows of cells. -/
structure DataFrame where
  columns : List String
  rows : List (List String)
deriving Repr, DecidableEq

/-- Observable driver-level database activity of one helper call. -/
inductive DbEvent where
  | connect (connStr : List Char)
  | cursor
  | execute (sql : String)
  | fetchall
  | executemany (stmt : List Char) (rows : List (List String))
  | commit
  | close
deriving Repr, DecidableEq

/-- Outcome of `load_config`: either a value is returned to the caller
or the process terminates via `sys.exit code`. -/
inductive LoadOutcome (α : Type) where
  | ret (v : α)
  | exit (code : Nat)
deriving Repr, DecidableEq

-- ===================== Utils.py : get_mssql_db_connection =====================

/-- Embedding of `get_mssql_db_connection(server, db_name, username, password)`
(Utils.py line 64): the connection string handed to `pyodbc.connect`,
built by the source format string
`DRIVER=SQL Server;SERVER=...;DATABASE=...;UID=...;PWD=...`. -/
def get_mssql_db_connection_cred (server db_name username password : List Char) : List Char :=
  "DRIVER=SQL Server;SERVER=".toList ++ server ++ ";DATABASE=".toList ++ db_name
    ++ ";UID=".toList ++ username ++ ";PWD=".toList ++ password

/-- Embedding of `get_mssql_db_connection(server, db_name)` (Utils.py line 88):
the trusted-authentication connection string
`Driver=SQL Server;SERVER=...;DATABASE=...;Trusted_Connection=yes;`. -/
def get_mssql_db_connection_trusted (server db_name : List Char) : List Char :=
  "Driver=SQL Server;SERVER=".toList ++ server ++ ";DATABASE=".toList ++ db_name
    ++ ";Trusted_Connection=yes;".toList

-- ===================== Connection-string field analysis =====================

/-- Split a character list on a separator character; mirrors how a
semicolon-delimited connection string decomposes into fields. -/
def splitOnChar (c : Char) : List Char → List (List Char)
  | [] => [[]]
  | x :: xs =>
    if x = c then [] :: splitOnChar c xs
    else
      match splitOnChar c xs with
      | [] => [[x]]
      | h :: t => (x :: h) :: t

/-- Split one `key=value` field at its first `=`. -/
def splitKV : List Char → List Char × List Char
  | [] => ([], [])
  | x :: xs =>
    if x = '=' then ([], xs)
    else ((x :: (splitKV xs).1), (splitKV xs).2)

/-- Fields of a connection string: split on `;`, drop empty segments,
split each survivor into key and value at its first `=`. -/
def connStringFields (s : List Char) : List (List Char × List Char) :=
  ((splitOnChar ';' s).filter (fun x => !x.isEmpty)).map splitKV

-- ===================== Utils.py : read_from_mssql_db =====================

/-- A database backend: given the connection string of the connection the
cursor was opened on and the SQL text, yields the cursor description
(column names, in order) and the fetched rows. -/
def QueryEngine : Type := List Char → String → List String × List (List String)

/-- Embedding of the connection-taking `read_from_mssql_db(db_con, sql)`
(Utils.py line 110): opens a cursor, executes, fetches all rows; when
`len(data) > 0` builds a DataFrame from the data with the description
columns, otherwise an empty DataFrame with those columns.  Returns the
driver trace together with the DataFrame. -/
def read_from_mssql_db_con (qe : QueryEngine) (db_con : List Char) (sql : String) :
    List DbEvent × DataFrame :=
  let r := qe db_con sql
  ([DbEvent.cursor, DbEvent.execute sql, DbEvent.fetchall],
   if r.2.length > 0 then ⟨r.1, r.2⟩ else ⟨r.1, []⟩)

/-- Embedding of the credential-taking
`read_from_mssql_db(server, db_name, username, password, sql)`
(Utils.py line 139): opens its own connection, delegates to the
connection-taking overload, closes the connection, returns the data. -/
def read_from_mssql_db_cred (qe : QueryEngine)
    (server db_name username password : List Char) (sql : String) :
    List DbEvent × DataFrame :=
  let conn := get_mssql_db_connection_cred server db_name username password
  let r := read_from_mssql_db_con qe conn sql
  (DbEvent.connect conn :: r.1 ++ [DbEvent.close], r.2)

/-- Embedding of the trusted-authentication
`read_from_mssql_db(server, db_name, sql)` (Utils.py line 167). -/
def read_from_mssql_db_trusted (qe : QueryEngine)
    (server db_name : List Char) (sql : String) :
    List DbEvent × DataFrame :=
  let conn := get_mssql_db_connection_trusted server db_name
  let r := read_from_mssql_db_con qe conn sql
  (DbEvent.connect conn :: r.1 ++ [DbEvent.close], r.2)

-- ===================== Utils.py : write_to_mssql_db =====================

/-- The Python `','.join` over character lists. -/
def joinChar (sep : Char) : List (List Char) → List Char
  | [] => []
  | [x] => x
  | x :: y :: ys => x ++ sep :: joinChar sep (y :: ys)

/-- The INSERT statement built at Utils.py line 216:
`INSERT INTO {table} ({','.join(column_list)}) VALUES ({','.join(['?' for i in range(value_df.shape[1])])})`.
`width` is `value_df.shape[1]`, the DataFrame's column count. -/
def insert_stmt (table_name : List Char) (column_list : List (List Char)) (width : Nat) :
    List Char :=
  "INSERT INTO ".toList ++ table_name ++ " (".toList
    ++ joinChar ',' column_list ++ ") VALUES (".toList
    ++ joinChar ',' (List.replicate width ['?']) ++ ")".toList

/-- Embedding of the connection-taking
`write_to_mssql_db(db_con, table_name, column_list, value_df)`
(Utils.py line 194): raises `ValueError("Data frmae is empty")` when the
DataFrame has zero rows, before any driver activity; otherwise opens a
cursor, bulk-executes the INSERT over the DataFrame's rows, and commits.
Returns the driver trace performed together with the outcome. -/
def write_to_mssql_db_con (db_con : List Char) (table_name : String)
    (column_list : List String) (value_df : DataFrame) :
    List DbEvent × Except String Unit :=
  if value_df.rows.length = 0 then
    ([], Except.error "Data frmae is empty")
  else
    ([DbEvent.cursor,
      DbEvent.executemany
        (insert_stmt table_name.toList (column_list.map String.toList) value_df.columns.length)
        value_df.rows,
      DbEvent.commit],
     Except.ok ())

/-- Embedding of the credential-taking
`write_to_mssql_db(server, db_name, username, password, table_name, column_list, value_df)`
(Utils.py line 223): opens its own connection, delegates to the
connection-taking overload, and closes the connection (the close is
skipped when the inner call raises, since the exception propagates). -/
def write_to_mssql_db_cred (server db_name username password : List Char)
    (table_name : String) (column_list : List String) (value_df : DataFrame) :
    List DbEvent × Except String Unit :=
  let conn := get_mssql_db_connection_cred server db_name username password
  let r := write_to_mssql_db_con conn table_name column_list value_df
  match r.2 with
  | Except.ok _ => (DbEvent.connect conn :: r.1 ++ [DbEvent.close], Except.ok ())
  | Except.error e => (DbEvent.connect conn :: r.1, Except.error e)

/-- Embedding of the trusted-authentication
`write_to_mssql_db(server, db_name, table_name, column_list, value_df)`
(Utils.py line 253). -/
def write_to_mssql_db_trusted (server db_name : List Char)
    (table_name : String) (column_list : List String) (value_df : DataFrame) :
    List DbEvent × Except String Unit :=
  let conn := get_mssql_db_connection_trusted server db_name
  let r := write_to_mssql_db_con conn table_name column_list value_df
  match r.2 with
  | Except.ok _ => (DbEvent.connect conn :: r.1 ++ [DbEvent.close], Except.ok ())
  | Except.error e => (DbEvent.connect conn :: r.1, Except.error e)

-- ===================== Utils.py : get_logger =====================

/-- A handler attached to a logger: a file handler with its path, or a
console (stream) handler. -/
inductive LogHandler where
  | file (path : String)
  | console
deriving Repr, DecidableEq

/-- The observable configuration of a `logging` logger as `get_logger`
builds it: its registry name, propagate flag, level, attached handlers. -/
structure Logger where
  name : String
  propagate : Bool
  level : Nat
  handlers : List LogHandler
deriving Repr, DecidableEq

/-- The `logging` module's DEBUG level constant. -/
def logging.DEBUG : Nat := 10

/-- The `logging` module's INFO level constant. -/
def logging.INFO : Nat := 20

/-- Whether a file handler is attached to the logger. -/
def Logger.hasFileHandler (l : Logger) : Bool :=
  l.handlers.any fun h => match h with | LogHandler.file _ => true | LogHandler.console => false

/-- Whether a console handler is attached to the logger. -/
def Logger.hasConsoleHandler (l : Logger) : Bool :=
  l.handlers.any fun h => match h with | LogHandler.file _ => false | LogHandler.console => true

/-- Embedding of `get_logger(logging_path, logger_name, write_to_file,
write_to_console, debug)` (Utils.py line 279).  `now` stands for
`datetime.datetime.now().strftime('%Y-%m-%d_%H_%M_%S')`.  The guard at
line 306 raises `ValueError` when `write_to_file` is false and
`write_to_console` is true; otherwise a file handler is added when
`write_to_file`, a console handler when `write_to_console`, and the
level is raised to DEBUG when `debug`. -/
def get_logger (logging_path logger_name now : String)
    ( write_to_file write_to_console debug : Bool) : Except String Logger :=
  let log_path := logging_path ++ "/" ++ logger_name ++ "_" ++ now ++ ".log"
  if !write_to_file && write_to_console then
    Except.error "Need to enable either file writing or console writing"
  else
    Except.ok
      { name := log_path
        propagate := false
        level := if debug then logging.DEBUG else logging.INFO
        handlers :=
          (if write_to_file then [LogHandler.file log_path] else [])
            ++ (if write_to_console then [LogHandler.console] else []) }

-- ===================== Utils.py : load_config =====================

/-- Embedding of `load_config(file_path)` (Utils.py line 17).  The file
system is a map from paths to contents (`none`: `open` raises, which the
function does not catch); `safe_load` is the YAML parser, returning the
parsed document or a `yaml.YAMLError`.  On parse failure the code prints
the error and calls `sys.exit(0)`. -/
def load_config {α : Type} (fileSystem : String → Option String)
    (safe_load : String → Except String α) (file_path : String) :
    Option (LoadOutcome α) :=
  match fileSystem file_path with
  | none => none
  | some content =>
    match safe_load content with
    | Except.ok conf => some (LoadOutcome.ret conf)
    | Except.error _ => some (LoadOutcome.exit 0)

-- ===================== main.py : classifer =====================

/-- The four-entry class dictionary of main.py line 19,
`{0:'Angry',1:'Happy',2:'Neutral',3:'Sad'}`; a missing key is a
`KeyError`, embedded as `none`. -/
def class_dict : Nat → Option String
  | 0 => some "Angry"
  | 1 => some "Happy"
  | 2 => some "Neutral"
  | 3 => some "Sad"
  | _ => none

/-- Accumulator for `argmax`: index of the first maximal score seen so
far, scanning left to right (numpy tie-breaking). -/
def argmaxAux : List ℚ → Nat → Nat → ℚ → Nat
  | [], _, best, _ => best
  | x :: xs, i, best, bestVal =>
    if bestVal < x then argmaxAux xs (i + 1) i x
    else argmaxAux xs (i + 1) best bestVal

/-- `np.array(result).argmax()`: index of the first maximal entry of the
flattened score list (0 on an empty list, where numpy raises instead;
all uses are guarded by a non-empty hypothesis). -/
def argmax : List ℚ → Nat
  | [] => 0
  | x :: xs => argmaxAux xs 1 0 x

/-- Embedding of `classifer(img_tensor)` (main.py line 22).  `model`
stands for `model.predict_on_batch` with its batched output flattened to
a score list; the result is the class dictionary entry at the arg-max
index. -/
def classifer (model : List ℚ → List ℚ) (img_tensor : List ℚ) : Option String :=
  class_dict (argmax (model img_tensor))

/-- The shape check for the tensors `preprocess` produces
(`(1, 48, 48, 1)` flattened: 2304 entries). -/
def correctly_shaped (img_tensor : List ℚ) : Prop :=
  img_tensor.length = 2304

-- ===================== main.py : fetch_song_list =====================

/-- `os.path.join` as used on the song directories. -/
def os_path_join (a b : String) : String := a ++ "/" ++ b

/-- Drop from one row every cell sitting under a column named `c`
(the row-level effect of pandas `drop(c, axis=1)`). -/
def dropRowCells (columns : List String) (c : String) (row : List String) : List String :=
  ((row.zip columns).filter (fun p => p.2 != c)).map Prod.fst

/-- pandas `df.drop(c, axis=1)` on a DataFrame whose columns contain
`c`: removes every column named `c` and its cells from every row. -/
def DataFrame.dropColumn (df : DataFrame) (c : String) : DataFrame :=
  ⟨df.columns.filter (fun x => x != c), df.rows.map (dropRowCells df.columns c)⟩

/-- Embedding of `fetch_song_list(emo_class)` (main.py line 40).
`listdir` is `os.listdir` (`none`: the directory does not exist and
`FileNotFoundError` propagates); `read_excel` is `pd.read_excel`
(`none`: the read raises).  The code joins the Songs root with the
label, takes the first directory entry (`IndexError` on an empty
directory), loads it, and drops the `ID` column (`KeyError` when the
table has no such column). -/
def fetch_song_list (listdir : String → Option (List String))
    (read_excel : String → Option DataFrame)
    (songsRoot : String) (emo_class : String) : Except String DataFrame :=
  let emo_class_folder := os_path_join songsRoot emo_class
  match listdir emo_class_folder with
  | none => Except.error "FileNotFoundError"
  | some files =>
    match files with
    | [] => Except.error "IndexError: list index out of range"
    | f :: _ =>
      let song_excel_path := os_path_join emo_class_folder f
      match read_excel song_excel_path with
      | none => Except.error "read_excel failed"
      | some song_list_df =>
        if "ID" ∈ song_list_df.columns then
          Except.ok (song_list_df.dropColumn "ID")
        else
          Except.error "KeyError"

/-- The cells of one DataFrame row paired with their column names
(cell first, column name second); rows out of range give `[]`. -/
def DataFrame.rowPairs (df : DataFrame) (i : Nat) : List (String × String) :=
  (df.rows[i]?.getD []).zip df.columns

/-- The cell of row `i` under the first column named `c`, when any. -/
def DataFrame.cellAt (df : DataFrame) (i : Nat) (c : String) : Option String :=
  ((df.rowPairs i).find? (fun p => p.2 == c)).map Prod.fst

-- ===================== Theorems =====================

/-- C2: for every connection, table name and column list, calling
`write_to_mssql_db` with a row-set containing zero rows raises
`ValueError` and performs no database operation (no cursor creation,
execute, or commit) before the raise: the driver trace is empty, so the
database state is unchanged. -/
theorem write_to_mssql_db_empty_raises (db_con : List Char) (table_name : String)
    (column_list : List String) (value_df : DataFrame) (h : value_df.rows = []) :
    write_to_mssql_db_con db_con table_name column_list value_df
      = ([], Except.error "Data frmae is empty") := by
  simp [write_to_mssql_db_con, h]

theorem write_to_mssql_db_empty_raises_witness :
    write_to_mssql_db_con "conn".toList "T" ["a", "b"] ⟨["a", "b"], []⟩
      = ([], Except.error "Data frmae is empty") :=
  write_to_mssql_db_empty_raises "conn".toList "T" ["a", "b"] ⟨["a", "b"], []⟩ rfl

/-- C9: the connection-taking `read_from_mssql_db` returns a DataFrame
whose columns are exactly the cursor-description column names, in
order, and whose rows are exactly the fetched rows — in particular, a
zero-row result set yields an empty DataFrame with those columns, and a
non-empty one yields one DataFrame row per fetched row. -/
theorem read_from_mssql_db_con_shape (qe : QueryEngine) (db_con : List Char) (sql : String) :
    (read_from_mssql_db_con qe db_con sql).2.columns = (qe db_con sql).1 ∧
    (read_from_mssql_db_con qe db_con sql).2.rows = (qe db_con sql).2 := by
  rcases hr : qe db_con sql with ⟨cols, data⟩
  cases data <;> simp [read_from_mssql_db_con, hr]

/-- C4: `load_config` on a path naming a well-formed YAML file returns
the mapping equal to the file's parsed content, and on a path naming a
malformed YAML file terminates the process via `sys.exit(0)` without
returning to the caller. -/
theorem load_config_parse_behaviour {α : Type} (fileSystem : String → Option String)
    (safe_load : String → Except String α) (file_path : String) (content : String)
    (hfs : fileSystem file_path = some content) :
    (∀ conf, safe_load content = Except.ok conf →
      load_config fileSystem safe_load file_path = some (LoadOutcome.ret conf)) ∧
    (∀ e, safe_load content = Except.error e →
      load_config fileSystem safe_load file_path = some (LoadOutcome.exit 0)) := by
  constructor
  · intro conf hok
    simp [load_config, hfs, hok]
  · intro e herr
    simp [load_config, hfs, herr]

theorem load_config_parse_behaviour_witness :
    load_config (fun _ => some "k: v")
      (fun s => if s = "k: v" then Except.ok 42 else Except.error "yaml.YAMLError")
      "config/configurations.yml" = some (LoadOutcome.ret 42) ∧
    load_config (fun _ => some ": bad: yaml")
      (fun s => if s = "k: v" then Except.ok 42 else Except.error "yaml.YAMLError")
      "config/configurations.yml" = some (LoadOutcome.exit 0) :=
  ⟨(load_config_parse_behaviour (fun _ => some "k: v")
      (fun s => if s = "k: v" then Except.ok 42 else Except.error "yaml.YAMLError")
      "config/configurations.yml" "k: v" rfl).1 42 (by simp),
   (load_config_parse_behaviour (fun _ => some ": bad: yaml")
      (fun s => if s = "k: v" then Except.ok 42 else Except.error "yaml.YAMLError")
      "config/configurations.yml" ": bad: yaml" rfl).2 "yaml.YAMLError" (by simp)⟩

/-- C8: for every emotion label whose directory exists but contains no
files, `fetch_song_list` fails with the propagated `IndexError` from
`os.listdir(...)[0]` rather than returning a default result. -/
theorem fetch_song_list_empty_dir_fails (listdir : String → Option (List String))
    (read_excel : String → Option DataFrame) (songsRoot emo_class : String)
    (h : listdir (os_path_join songsRoot emo_class) = some []) :
    fetch_song_list listdir read_excel songsRoot emo_class
      = Except.error "IndexError: list index out of range" := by
  simp [fetch_song_list, h]

theorem fetch_song_list_empty_dir_fails_witness :
    fetch_song_list (fun _ => some []) (fun _ => none) "Songs" "Happy"
      = Except.error "IndexError: list index out of range" :=
  fetch_song_list_empty_dir_fails (fun _ => some []) (fun _ => none) "Songs" "Happy" rfl

/-- C1: `get_logger` raises `ValueError` exactly when `write_to_file` is
false and `write_to_console` is true; for every other combination it
returns a logger to which a file handler is attached iff
`write_to_file` and a console handler is attached iff
`write_to_console`. -/
theorem get_logger_guard_and_handlers (logging_path logger_name now : String)
    (wtf wtc dbg : Bool) :
    ((∃ e, get_logger logging_path logger_name now wtf wtc dbg = Except.error e)
        ↔ (wtf = false ∧ wtc = true)) ∧
    (∀ l, get_logger logging_path logger_name now wtf wtc dbg = Except.ok l →
      l.hasFileHandler = wtf ∧ l.hasConsoleHandler = wtc) := by
  cases wtf <;> cases wtc <;>
    simp [get_logger, Logger.hasFileHandler, Logger.hasConsoleHandler]

theorem get_logger_guard_and_handlers_witness :
    (∃ e, get_logger "logs" "app" "t0" false true false = Except.error e) ∧
    (Logger.hasFileHandler
        ⟨"logs/app_t0.log", false, 20, [LogHandler.file "logs/app_t0.log", LogHandler.console]⟩
          = true ∧
      Logger.hasConsoleHandler
        ⟨"logs/app_t0.log", false, 20, [LogHandler.file "logs/app_t0.log", LogHandler.console]⟩
          = true) :=
  ⟨(get_logger_guard_and_handlers "logs" "app" "t0" false true false).1.mpr ⟨rfl, rfl⟩,
   (get_logger_guard_and_handlers "logs" "app" "t0" true true false).2
     ⟨"logs/app_t0.log", false, 20, [LogHandler.file "logs/app_t0.log", LogHandler.console]⟩
     rfl⟩

/-- C6: the credential-taking overload of `read_from_mssql_db` returns
the same DataFrame as the connection-taking overload applied to a
connection freshly opened with those credentials, and its trace opens
that connection first and closes it last (before returning); the
credential-taking and trusted-authentication overloads of
`write_to_mssql_db` likewise perform exactly the connection-taking
overload's operations on their own freshly opened connection and close
it before returning. -/
theorem db_helpers_connection_per_call (qe : QueryEngine)
    (server db_name username password : List Char) (sql : String)
    (table_name : String) (column_list : List String) (value_df : DataFrame)
    (h : value_df.rows ≠ []) :
    (read_from_mssql_db_cred qe server db_name username password sql).2
      = (read_from_mssql_db_con qe
          (get_mssql_db_connection_cred server db_name username password) sql).2 ∧
    (read_from_mssql_db_cred qe server db_name username password sql).1
      = DbEvent.connect (get_mssql_db_connection_cred server db_name username password)
          :: (read_from_mssql_db_con qe
              (get_mssql_db_connection_cred server db_name username password) sql).1
          ++ [DbEvent.close] ∧
    write_to_mssql_db_cred server db_name username password table_name column_list value_df
      = (DbEvent.connect (get_mssql_db_connection_cred server db_name username password)
          :: (write_to_mssql_db_con
              (get_mssql_db_connection_cred server db_name username password)
              table_name column_list value_df).1
          ++ [DbEvent.close],
         Except.ok ()) ∧
    write_to_mssql_db_trusted server db_name table_name column_list value_df
      = (DbEvent.connect (get_mssql_db_connection_trusted server db_name)
          :: (write_to_mssql_db_con
              (get_mssql_db_connection_trusted server db_name)
              table_name column_list value_df).1
          ++ [DbEvent.close],
         Except.ok ()) := by
  have hlen : value_df.rows.length ≠ 0 := fun hc => h (List.length_eq_zero.mp hc)
  refine ⟨rfl, rfl, ?_, ?_⟩ <;>
    simp [write_to_mssql_db_cred, write_to_mssql_db_trusted, write_to_mssql_db_con, hlen]

theorem db_helpers_connection_per_call_witness :
    (read_from_mssql_db_cred (fun _ _ => (["c"], [])) "s".toList "d".toList "u".toList "p".toList "SELECT 1").2
      = (read_from_mssql_db_con (fun _ _ => (["c"], []))
          (get_mssql_db_connection_cred "s".toList "d".toList "u".toList "p".toList) "SELECT 1").2 ∧
    write_to_mssql_db_trusted "s".toList "d".toList "T" ["a"] ⟨["a"], [["1"]]⟩
      = (DbEvent.connect (get_mssql_db_connection_trusted "s".toList "d".toList)
          :: (write_to_mssql_db_con (get_mssql_db_connection_trusted "s".toList "d".toList)
              "T" ["a"] ⟨["a"], [["1"]]⟩).1
          ++ [DbEvent.close],
         Except.ok ()) := by
  have h := db_helpers_connection_per_call (fun _ _ => (["c"], []))
    "s".toList "d".toList "u".toList "p".toList "SELECT 1" "T" ["a"] ⟨["a"], [["1"]]⟩
    (by simp)
  exact ⟨h.1, h.2.2.2⟩

/-- The accumulator scan of `argmax` stays below the number of scores
already indexed plus those still to scan. -/
theorem argmaxAux_lt (xs : List ℚ) (i best : Nat) (v : ℚ) (h : best < i) :
    argmaxAux xs i best v < i + xs.length := by
  induction xs generalizing i best v with
  | nil => simpa [argmaxAux] using h
  | cons x xs ih =>
    simp only [argmaxAux, List.length_cons]
    by_cases hc : v < x
    · have := ih (i + 1) i x (Nat.lt_succ_self i)
      simp only [hc, if_true]
      omega
    · have := ih (i + 1) best v (Nat.lt_succ_of_lt h)
      simp only [hc, if_false]
      omega

/-- The arg-max index of a non-empty score list is a valid index. -/
theorem argmax_lt_length (l : List ℚ) (h : l ≠ []) : argmax l < l.length := by
  cases l with
  | nil => exact absurd rfl h
  | cons x xs =>
    have := argmaxAux_lt xs 1 0 x Nat.zero_lt_one
    simpa [argmax, Nat.add_comm] using this

/-- C3: for every correctly shaped input tensor (and the pre-trained
four-class model, whose flattened output has four entries), `classifer`
returns the name that the four-entry class dictionary maps the arg-max
index of the model's output to, and that name is one of exactly
`Angry`, `Happy`, `Neutral`, `Sad`. -/
theorem classifer_four_labels (model : List ℚ → List ℚ) (img_tensor : List ℚ)
    (hshape : correctly_shaped img_tensor) (hout : (model img_tensor).length = 4) :
    classifer model img_tensor = class_dict (argmax (model img_tensor)) ∧
    ∃ lbl, classifer model img_tensor = some lbl ∧
      (lbl = "Angry" ∨ lbl = "Happy" ∨ lbl = "Neutral" ∨ lbl = "Sad") := by
  refine ⟨rfl, ?_⟩
  have hne : model img_tensor ≠ [] := by
    intro hnil
    rw [hnil] at hout
    simp at hout
  have h4 : argmax (model img_tensor) < 4 := by
    have := argmax_lt_length (model img_tensor) hne
    omega
  have hcl : classifer model img_tensor = class_dict (argmax (model img_tensor)) := rfl
  rcases hk : argmax (model img_tensor) with _ | _ | _ | _ | k
  · exact ⟨"Angry", by rw [hcl, hk]; rfl, Or.inl rfl⟩
  · exact ⟨"Happy", by rw [hcl, hk]; rfl, Or.inr (Or.inl rfl)⟩
  · exact ⟨"Neutral", by rw [hcl, hk]; rfl, Or.inr (Or.inr (Or.inl rfl))⟩
  · exact ⟨"Sad", by rw [hcl, hk]; rfl, Or.inr (Or.inr (Or.inr rfl))⟩
  · rw [hk] at h4
    omega

theorem classifer_four_labels_witness :
    ∃ lbl, classifer (fun _ => [(0 : ℚ), 1, 0, 0]) (List.replicate 2304 (0 : ℚ)) = some lbl ∧
      (lbl = "Angry" ∨ lbl = "Happy" ∨ lbl = "Neutral" ∨ lbl = "Sad") :=
  (classifer_four_labels (fun _ => [(0 : ℚ), 1, 0, 0]) (List.replicate 2304 (0 : ℚ))
    (List.length_replicate 2304 (0 : ℚ)) rfl).2

/-- Filtering by a predicate implied by the search predicate does not
change the result of `find?`. -/
theorem find?_filter_of_imp {α : Type} (p q : α → Bool) (l : List α)
    (h : ∀ x, p x = true → q x = true) :
    (l.filter q).find? p = l.find? p := by
  induction l with
  | nil => rfl
  | cons x xs ih =>
    by_cases hq : q x = true
    · rw [List.filter_cons_of_pos hq]
      by_cases hp : p x = true
      · rw [List.find?_cons_of_pos _ hp, List.find?_cons_of_pos _ hp]
      · rw [List.find?_cons_of_neg _ (by simpa using hp),
          List.find?_cons_of_neg _ (by simpa using hp), ih]
    · have hp : ¬p x = true := fun hpx => hq (h x hpx)
      rw [List.filter_cons_of_neg (by simpa using hq),
        List.find?_cons_of_neg _ (by simpa using hp), ih]

/-- Zipping a dropped row against the dropped column list is the filter
of the original cell/column pairing. -/
theorem dropRowCells_zip (cols : List String) (c : String) (r : List String)
    (h : r.length = cols.length) :
    (dropRowCells cols c r).zip (cols.filter (fun x => x != c))
      = (r.zip cols).filter (fun p => p.2 != c) := by
  induction cols generalizing r with
  | nil => simp [dropRowCells]
  | cons a as ih =>
    cases r with
    | nil => simp at h
    | cons x xs =>
      have h' : xs.length = as.length := by simpa using h
      have hd : dropRowCells (a :: as) c (x :: xs)
          = if (a != c) = true then x :: dropRowCells as c xs else dropRowCells as c xs := by
        by_cases hac : (a != c) = true <;>
          simp [dropRowCells, List.zip_cons_cons, List.filter_cons, hac]
      by_cases hac : (a != c) = true
      · rw [hd, if_pos hac, List.zip_cons_cons, List.filter_cons]
        simp only [hac, if_true]
        rw [List.zip_cons_cons, List.filter_cons]
        simp only [hac, if_true]
        exact congrArg (List.cons (x, a)) (ih xs h')
      · rw [hd, if_neg hac, List.zip_cons_cons, List.filter_cons]
        simp only [List.filter_cons, hac, if_false, Bool.false_eq_true]
        exact ih xs h'

/-- Dropping a column turns the cell/column pairing of each row into the
filtered pairing of the original row. -/
theorem dropColumn_rowPairs (df : DataFrame) (c : String) (i : Nat) (r : List String)
    (hri : df.rows[i]? = some r) (hlen : r.length = df.columns.length) :
    (df.dropColumn c).rowPairs i = (df.rowPairs i).filter (fun p => p.2 != c) := by
  unfold DataFrame.rowPairs DataFrame.dropColumn
  simp only [List.getElem?_map, hri, Option.map_some', Option.getD_some]
  exact dropRowCells_zip df.columns c r hlen

/-- A row index out of range pairs to the empty list. -/
theorem rowPairs_of_none (df : DataFrame) (i : Nat) (h : df.rows[i]? = none) :
    df.rowPairs i = [] := by
  unfold DataFrame.rowPairs
  simp [h]

/-- C5: for every emotion label whose directory under the Songs root is
non-empty, `fetch_song_list` returns the table loaded from the first
file listed in that label's directory with the identifier column `ID`
removed: `ID` has no cell in any row of the result, while every other
column keeps its place in order and its cell in every row, and the row
count is unchanged. -/
theorem fetch_song_list_drops_id (listdir : String → Option (List String))
    (read_excel : String → Option DataFrame) (songsRoot emo_class f : String)
    (rest : List String) (df : DataFrame)
    (hdir : listdir (os_path_join songsRoot emo_class) = some (f :: rest))
    (hread : read_excel (os_path_join (os_path_join songsRoot emo_class) f) = some df)
    (hid : "ID" ∈ df.columns)
    (hwf : ∀ r ∈ df.rows, r.length = df.columns.length) :
    fetch_song_list listdir read_excel songsRoot emo_class
        = Except.ok (df.dropColumn "ID") ∧
    (df.dropColumn "ID").columns = df.columns.filter (fun x => x != "ID") ∧
    (df.dropColumn "ID").rows.length = df.rows.length ∧
    (∀ i, (df.dropColumn "ID").cellAt i "ID" = none) ∧
    (∀ i c, c ≠ "ID" → (df.dropColumn "ID").cellAt i c = df.cellAt i c) := by
  refine ⟨?_, rfl, ?_, ?_, ?_⟩
  · simp [fetch_song_list, hdir, hread, hid]
  · simp [DataFrame.dropColumn]
  · intro i
    cases hri : df.rows[i]? with
    | none =>
      have hnone : (df.dropColumn "ID").rows[i]? = none := by
        simp [DataFrame.dropColumn, List.getElem?_map, hri]
      simp [DataFrame.cellAt, rowPairs_of_none _ _ hnone]
    | some r =>
      have hlen := hwf r (List.getElem?_mem hri)
      unfold DataFrame.cellAt
      rw [dropColumn_rowPairs df "ID" i r hri hlen]
      rw [List.find?_eq_none.mpr]
      · rfl
      · intro p hp
        have hne := (List.mem_filter.mp hp).2
        simp only [bne_iff_ne, ne_eq] at hne
        simpa using hne
  · intro i c hc
    cases hri : df.rows[i]? with
    | none =>
      have hnone : (df.dropColumn "ID").rows[i]? = none := by
        simp [DataFrame.dropColumn, List.getElem?_map, hri]
      simp [DataFrame.cellAt, rowPairs_of_none _ _ hnone, rowPairs_of_none _ _ hri]
    | some r =>
      have hlen := hwf r (List.getElem?_mem hri)
      unfold DataFrame.cellAt
      rw [dropColumn_rowPairs df "ID" i r hri hlen]
      rw [find?_filter_of_imp]
      intro p hp
      have hpc : p.2 = c := by simpa using hp
      simp [hpc, hc]

theorem fetch_song_list_drops_id_witness :
    fetch_song_list (fun _ => some ["list.xlsx"])
        (fun _ => some ⟨["ID", "Title"], [["1", "s1"], ["2", "s2"]]⟩) "Songs" "Happy"
      = Except.ok ((⟨["ID", "Title"], [["1", "s1"], ["2", "s2"]]⟩ : DataFrame).dropColumn "ID") ∧
    ((⟨["ID", "Title"], [["1", "s1"], ["2", "s2"]]⟩ : DataFrame).dropColumn "ID").cellAt 0 "ID"
      = none := by
  have h := fetch_song_list_drops_id (fun _ => some ["list.xlsx"])
    (fun _ => some ⟨["ID", "Title"], [["1", "s1"], ["2", "s2"]]⟩) "Songs" "Happy" "list.xlsx"
    [] ⟨["ID", "Title"], [["1", "s1"], ["2", "s2"]]⟩ rfl rfl (by simp) (by decide)
  exact ⟨h.1, h.2.2.2.1 0⟩

/-- A separator-free prefix becomes the first field of a split. -/
theorem splitOnChar_sep (c : Char) (a rest : List Char) (h : c ∉ a) :
    splitOnChar c (a ++ c :: rest) = a :: splitOnChar c rest := by
  induction a with
  | nil => simp [splitOnChar]
  | cons x xs ih =>
    have hx : ¬x = c := fun hxc => h (hxc ▸ List.mem_cons_self x xs)
    have h' : c ∉ xs := fun hm => h (List.mem_cons_of_mem _ hm)
    simp only [List.cons_append, splitOnChar, List.append_eq, if_neg hx, ih h']

/-- A separator-free string is a single field. -/
theorem splitOnChar_nosep (c : Char) (a : List Char) (h : c ∉ a) :
    splitOnChar c a = [a] := by
  induction a with
  | nil => rfl
  | cons x xs ih =>
    have hx : ¬x = c := fun hxc => h (hxc ▸ List.mem_cons_self x xs)
    have h' : c ∉ xs := fun hm => h (List.mem_cons_of_mem _ hm)
    simp only [splitOnChar, if_neg hx, ih h']

/-- Splitting `key=value` at the first `=` recovers key and value when
the key contains no `=`. -/
theorem splitKV_eq (k v : List Char) (h : '=' ∉ k) :
    splitKV (k ++ '=' :: v) = (k, v) := by
  induction k with
  | nil => simp [splitKV]
  | cons x xs ih =>
    have hx : ¬x = '=' := fun hxc => h (hxc ▸ List.mem_cons_self x xs)
    have h' : '=' ∉ xs := fun hm => h (List.mem_cons_of_mem _ hm)
    simp only [List.cons_append, splitKV, List.append_eq, if_neg hx, ih h']

/-- Filtering non-empty segments keeps a list of non-empty segments. -/
theorem filter_nonEmpty_eq_self (l : List (List Char)) (h : ∀ x ∈ l, x ≠ []) :
    List.filter (fun x => !x.isEmpty) l = l := by
  rw [List.filter_eq_self]
  intro a ha
  cases hx : a with
  | nil => exact absurd hx (h a ha)
  | cons y ys => rfl

/-- The prefix of a field built from a `=`-terminated literal key. -/
theorem append_eq_key_val (k tail v : List Char) (htail : tail = k ++ ['=']) :
    tail ++ v = k ++ '=' :: v := by
  rw [htail, List.append_assoc]
  rfl

/-- An append with a non-empty left part is non-empty. -/
theorem append_ne_nil_left (a b : List Char) (h : a ≠ []) : a ++ b ≠ [] := by
  intro hnil
  rcases List.append_eq_nil.mp hnil with ⟨h1, _⟩
  exact h h1

/-- C7: with no username and password supplied, `get_mssql_db_connection`
builds a connection string whose fields carry `Trusted_Connection=yes`
and no `UID` or `PWD` field, while the four-argument overload builds one
carrying the supplied username under `UID` and password under `PWD`
(for inputs free of the `;` field separator). -/
theorem get_mssql_db_connection_auth_fields (server db_name username password : List Char)
    (hs : ';' ∉ server) (hd : ';' ∉ db_name)
    (hu : ';' ∉ username) (hp : ';' ∉ password) :
    connStringFields (get_mssql_db_connection_trusted server db_name)
      = [("Driver".toList, "SQL Server".toList), ("SERVER".toList, server),
         ("DATABASE".toList, db_name), ("Trusted_Connection".toList, "yes".toList)] ∧
    (∀ kv ∈ connStringFields (get_mssql_db_connection_trusted server db_name),
      kv.1 ≠ "UID".toList ∧ kv.1 ≠ "PWD".toList) ∧
    connStringFields (get_mssql_db_connection_cred server db_name username password)
      = [("DRIVER".toList, "SQL Server".toList), ("SERVER".toList, server),
         ("DATABASE".toList, db_name), ("UID".toList, username),
         ("PWD".toList, password)] := by
  have hs2 : ';' ∉ ("SERVER=".toList ++ server) := by
    intro hm
    rcases List.mem_append.mp hm with hm | hm
    · exact absurd hm (by decide)
    · exact hs hm
  have hd2 : ';' ∉ ("DATABASE=".toList ++ db_name) := by
    intro hm
    rcases List.mem_append.mp hm with hm | hm
    · exact absurd hm (by decide)
    · exact hd hm
  have hu2 : ';' ∉ ("UID=".toList ++ username) := by
    intro hm
    rcases List.mem_append.mp hm with hm | hm
    · exact absurd hm (by decide)
    · exact hu hm
  have hp2 : ';' ∉ ("PWD=".toList ++ password) := by
    intro hm
    rcases List.mem_append.mp hm with hm | hm
    · exact absurd hm (by decide)
    · exact hp hm
  have k2 : splitKV ("SERVER=".toList ++ server) = ("SERVER".toList, server) := by
    rw [append_eq_key_val "SERVER".toList _ server (by decide), splitKV_eq _ _ (by decide)]
  have k3 : splitKV ("DATABASE=".toList ++ db_name) = ("DATABASE".toList, db_name) := by
    rw [append_eq_key_val "DATABASE".toList _ db_name (by decide), splitKV_eq _ _ (by decide)]
  have k5 : splitKV ("UID=".toList ++ username) = ("UID".toList, username) := by
    rw [append_eq_key_val "UID".toList _ username (by decide), splitKV_eq _ _ (by decide)]
  have k6 : splitKV ("PWD=".toList ++ password) = ("PWD".toList, password) := by
    rw [append_eq_key_val "PWD".toList _ password (by decide), splitKV_eq _ _ (by decide)]
  have e1 : get_mssql_db_connection_trusted server db_name
      = "Driver=SQL Server".toList ++ ';'
        :: (("SERVER=".toList ++ server) ++ ';'
        :: (("DATABASE=".toList ++ db_name) ++ ';'
        :: ("Trusted_Connection=yes".toList ++ ';' :: ([] : List Char)))) := by
    have l1 : ("Driver=SQL Server;SERVER=".toList : List Char)
        = "Driver=SQL Server".toList ++ ';' :: "SERVER=".toList := by decide
    have l2 : (";DATABASE=".toList : List Char) = ';' :: "DATABASE=".toList := by decide
    have l3 : (";Trusted_Connection=yes;".toList : List Char)
        = ';' :: ("Trusted_Connection=yes".toList ++ ';' :: ([] : List Char)) := by decide
    unfold get_mssql_db_connection_trusted
    rw [l1, l2, l3]
    simp [List.append_assoc]
  have htr : splitOnChar ';' (get_mssql_db_connection_trusted server db_name)
      = ["Driver=SQL Server".toList, "SERVER=".toList ++ server,
         "DATABASE=".toList ++ db_name, "Trusted_Connection=yes".toList, []] := by
    rw [e1, splitOnChar_sep _ _ _ (by decide), splitOnChar_sep _ _ _ hs2,
      splitOnChar_sep _ _ _ hd2, splitOnChar_sep _ _ _ (by decide)]
    rfl
  have htrFields : connStringFields (get_mssql_db_connection_trusted server db_name)
      = [("Driver".toList, "SQL Server".toList), ("SERVER".toList, server),
         ("DATABASE".toList, db_name), ("Trusted_Connection".toList, "yes".toList)] := by
    unfold connStringFields
    rw [htr]
    rw [show (["Driver=SQL Server".toList, "SERVER=".toList ++ server,
        "DATABASE=".toList ++ db_name, "Trusted_Connection=yes".toList, ([] : List Char)])
      = ["Driver=SQL Server".toList, "SERVER=".toList ++ server,
        "DATABASE=".toList ++ db_name, "Trusted_Connection=yes".toList] ++ [([] : List Char)]
      from rfl]
    rw [List.filter_append, filter_nonEmpty_eq_self]
    · rw [show List.filter (fun x => !x.isEmpty) [([] : List Char)] = [] from rfl,
        List.append_nil, List.map_cons, List.map_cons, List.map_cons, List.map_cons,
        List.map_nil, k2, k3]
      rw [show splitKV "Driver=SQL Server".toList
          = ("Driver".toList, "SQL Server".toList) from by decide]
      rw [show splitKV "Trusted_Connection=yes".toList
          = ("Trusted_Connection".toList, "yes".toList) from by decide]
    · intro x hx
      simp only [List.mem_cons, List.not_mem_nil, or_false] at hx
      rcases hx with hx | hx | hx | hx
      · subst hx; decide
      · subst hx; exact append_ne_nil_left _ _ (by decide)
      · subst hx; exact append_ne_nil_left _ _ (by decide)
      · subst hx; decide
  have e2 : get_mssql_db_connection_cred server db_name username password
      = "DRIVER=SQL Server".toList ++ ';'
        :: (("SERVER=".toList ++ server) ++ ';'
        :: (("DATABASE=".toList ++ db_name) ++ ';'
        :: (("UID=".toList ++ username) ++ ';'
        :: ("PWD=".toList ++ password)))) := by
    have l1 : ("DRIVER=SQL Server;SERVER=".toList : List Char)
        = "DRIVER=SQL Server".toList ++ ';' :: "SERVER=".toList := by decide
    have l2 : (";DATABASE=".toList : List Char) = ';' :: "DATABASE=".toList := by decide
    have l4 : (";UID=".toList : List Char) = ';' :: "UID=".toList := by decide
    have l5 : (";PWD=".toList : List Char) = ';' :: "PWD=".toList := by decide
    unfold get_mssql_db_connection_cred
    rw [l1, l2, l4, l5]
    simp [List.append_assoc]
  have hcr : splitOnChar ';' (get_mssql_db_connection_cred server db_name username password)
      = ["DRIVER=SQL Server".toList, "SERVER=".toList ++ server,
         "DATABASE=".toList ++ db_name, "UID=".toList ++ username,
         "PWD=".toList ++ password] := by
    rw [e2, splitOnChar_sep _ _ _ (by decide), splitOnChar_sep _ _ _ hs2,
      splitOnChar_sep _ _ _ hd2, splitOnChar_sep _ _ _ hu2, splitOnChar_nosep _ _ hp2]
  have hcrFields : connStringFields (get_mssql_db_connection_cred server db_name username password)
      = [("DRIVER".toList, "SQL Server".toList), ("SERVER".toList, server),
         ("DATABASE".toList, db_name), ("UID".toList, username),
         ("PWD".toList, password)] := by
    unfold connStringFields
    rw [hcr, filter_nonEmpty_eq_self]
    · rw [List.map_cons, List.map_cons, List.map_cons, List.map_cons, List.map_cons,
        List.map_nil, k2, k3, k5, k6]
      rw [show splitKV "DRIVER=SQL Server".toList
          = ("DRIVER".toList, "SQL Server".toList) from by decide]
    · intro x hx
      simp only [List.mem_cons, List.not_mem_nil, or_false] at hx
      rcases hx with hx | hx | hx | hx | hx
      · subst hx; decide
      · subst hx; exact append_ne_nil_left _ _ (by decide)
      · subst hx; exact append_ne_nil_left _ _ (by decide)
      · subst hx; exact append_ne_nil_left _ _ (by decide)
      · subst hx; exact append_ne_nil_left _ _ (by decide)
  refine ⟨htrFields, ?_, hcrFields⟩
  intro kv hkv
  rw [htrFields] at hkv
  simp only [List.mem_cons, List.not_mem_nil, or_false] at hkv
  rcases hkv with h | h | h | h
  · subst h; exact ⟨by decide, by decide⟩
  · subst h
    exact ⟨by show ("SERVER".toList : List Char) ≠ "UID".toList; decide,
      by show ("SERVER".toList : List Char) ≠ "PWD".toList; decide⟩
  · subst h
    exact ⟨by show ("DATABASE".toList : List Char) ≠ "UID".toList; decide,
      by show ("DATABASE".toList : List Char) ≠ "PWD".toList; decide⟩
  · subst h; exact ⟨by decide, by decide⟩

theorem get_mssql_db_connection_auth_fields_witness :
    connStringFields (get_mssql_db_connection_trusted "10.0.0.1".toList "mydb".toList)
      = [("Driver".toList, "SQL Server".toList), ("SERVER".toList, "10.0.0.1".toList),
         ("DATABASE".toList, "mydb".toList), ("Trusted_Connection".toList, "yes".toList)] ∧
    connStringFields
        (get_mssql_db_connection_cred "10.0.0.1".toList "mydb".toList "sa".toList "pw".toList)
      = [("DRIVER".toList, "SQL Server".toList), ("SERVER".toList, "10.0.0.1".toList),
         ("DATABASE".toList, "mydb".toList), ("UID".toList, "sa".toList),
         ("PWD".toList, "pw".toList)] := by
  have h := get_mssql_db_connection_auth_fields "10.0.0.1".toList "mydb".toList
    "sa".toList "pw".toList (by decide) (by decide) (by decide) (by decide)
  exact ⟨h.1, h.2.2⟩

/-- A character distinct from the separator and absent from every item
does not occur in their join. -/
theorem count_joinChar_eq_zero (ch sep : Char) (l : List (List Char)) (hne : ch ≠ sep)
    (h : ∀ x ∈ l, ch ∉ x) : List.count ch (joinChar sep l) = 0 := by
  induction l with
  | nil => rfl
  | cons x xs ih =>
    cases xs with
    | nil =>
      show List.count ch x = 0
      exact List.count_eq_zero.mpr (h x (List.mem_cons_self x []))
    | cons y ys =>
      show List.count ch (x ++ sep :: joinChar sep (y :: ys)) = 0
      rw [List.count_append, List.count_cons_of_ne hne,
        List.count_eq_zero.mpr (h x (List.mem_cons_self x (y :: ys))),
        ih (fun z hz => h z (List.mem_cons_of_mem x hz))]

/-- The joined placeholder list holds exactly one `?` per placeholder. -/
theorem count_q_placeholders (n : Nat) :
    List.count '?' (joinChar ',' (List.replicate n ['?'])) = n := by
  induction n with
  | zero => rfl
  | succ m ih =>
    cases m with
    | zero => rfl
    | succ k =>
      rw [List.replicate_succ] at ih ⊢
      rw [List.replicate_succ]
      show List.count '?' (['?'] ++ ',' :: joinChar ',' (['?'] :: List.replicate k ['?']))
        = k + 1 + 1
      rw [List.count_append, show List.count '?' (['?'] : List Char) = 1 from rfl,
        List.count_cons_of_ne (by decide), ih]
      omega

/-- The comma count of a join of comma-free items is one less than the
item count. -/
theorem count_comma_joinChar (l : List (List Char)) (hne : l ≠ [])
    (h : ∀ x ∈ l, ',' ∉ x) :
    List.count ',' (joinChar ',' l) = l.length - 1 := by
  induction l with
  | nil => exact absurd rfl hne
  | cons x xs ih =>
    cases xs with
    | nil =>
      show List.count ',' x = 0
      exact List.count_eq_zero.mpr (h x (List.mem_cons_self x []))
    | cons y ys =>
      show List.count ',' (x ++ ',' :: joinChar ',' (y :: ys)) = (y :: ys).length + 1 - 1
      rw [List.count_append, List.count_cons_self,
        List.count_eq_zero.mpr (h x (List.mem_cons_self x (y :: ys))),
        ih (by simp) (fun z hz => h z (List.mem_cons_of_mem x hz))]
      simp

/-- C10: for every non-empty row-set, the INSERT statement that the
connection-taking `write_to_mssql_db` executes contains exactly one `?`
placeholder per DataFrame column (`value_df.shape[1]`), whatever the
column list is; and the statement's named-column arity (comma count of
the joined column names) equals its placeholder arity (comma count of
the joined placeholders) exactly when the column list's length equals
the DataFrame's column count. -/
theorem write_to_mssql_db_placeholder_arity (db_con : List Char) (table_name : String)
    (column_list : List String) (value_df : DataFrame)
    (hrows : value_df.rows ≠ [])
    (hqt : '?' ∉ table_name.toList)
    (hqc : ∀ c ∈ column_list, '?' ∉ c.toList)
    (hcne : column_list ≠ [])
    (hwne : value_df.columns ≠ [])
    (hcc : ∀ c ∈ column_list, ',' ∉ c.toList) :
    (write_to_mssql_db_con db_con table_name column_list value_df).1
      = [DbEvent.cursor,
         DbEvent.executemany
           (insert_stmt table_name.toList (column_list.map String.toList)
             value_df.columns.length)
           value_df.rows,
         DbEvent.commit] ∧
    List.count '?'
        (insert_stmt table_name.toList (column_list.map String.toList)
          value_df.columns.length)
      = value_df.columns.length ∧
    (List.count ',' (joinChar ',' (column_list.map String.toList))
        = List.count ',' (joinChar ',' (List.replicate value_df.columns.length ['?']))
      ↔ column_list.length = value_df.columns.length) := by
  have hql : ∀ x ∈ column_list.map String.toList, '?' ∉ x := by
    intro x hx
    rcases List.mem_map.mp hx with ⟨c, hc, rfl⟩
    exact hqc c hc
  have hcl : ∀ x ∈ column_list.map String.toList, ',' ∉ x := by
    intro x hx
    rcases List.mem_map.mp hx with ⟨c, hc, rfl⟩
    exact hcc c hc
  refine ⟨?_, ?_, ?_⟩
  · have hlen : value_df.rows.length ≠ 0 := fun hc => hrows (List.length_eq_zero.mp hc)
    simp [write_to_mssql_db_con, hlen]
  · unfold insert_stmt
    rw [List.count_append, List.count_append, List.count_append, List.count_append,
      List.count_append, List.count_append]
    rw [show List.count '?' ("INSERT INTO ".toList : List Char) = 0 from rfl,
      show List.count '?' (" (".toList : List Char) = 0 from rfl,
      show List.count '?' (") VALUES (".toList : List Char) = 0 from rfl,
      show List.count '?' (")".toList : List Char) = 0 from rfl,
      List.count_eq_zero.mpr hqt,
      count_joinChar_eq_zero '?' ',' _ (by decide) hql,
      count_q_placeholders]
    omega
  · have h1 : List.count ',' (joinChar ',' (column_list.map String.toList))
        = (column_list.map String.toList).length - 1 :=
      count_comma_joinChar _ (by simpa using hcne) hcl
    have h2 : List.count ',' (joinChar ',' (List.replicate value_df.columns.length ['?']))
        = (List.replicate value_df.columns.length (['?'] : List Char)).length - 1 := by
      refine count_comma_joinChar _ ?_ ?_
      · intro hr
        have := congrArg List.length hr
        simp at this
        exact hwne this
      · intro x hx
        rw [(List.mem_replicate.mp hx).2]
        decide
    rw [h1, h2, List.length_map, List.length_replicate]
    have hc1 : 0 < column_list.length := List.length_pos.mpr hcne
    have hc2 : 0 < value_df.columns.length := List.length_pos.mpr hwne
    omega

theorem write_to_mssql_db_placeholder_arity_witness :
    (write_to_mssql_db_con "conn".toList "tbl" ["a", "b"] ⟨["x", "y"], [["1", "2"]]⟩).1
      = [DbEvent.cursor,
         DbEvent.executemany
           (insert_stmt "tbl".toList (["a", "b"].map String.toList)
             (⟨["x", "y"], [["1", "2"]]⟩ : DataFrame).columns.length)
           [["1", "2"]],
         DbEvent.commit] ∧
    List.count '?'
        (insert_stmt "tbl".toList (["a", "b"].map String.toList)
          (⟨["x", "y"], [["1", "2"]]⟩ : DataFrame).columns.length)
      = (⟨["x", "y"], [["1", "2"]]⟩ : DataFrame).columns.length := by
  have h := write_to_mssql_db_placeholder_arity "conn".toList "tbl" ["a", "b"]
    ⟨["x", "y"], [["1", "2"]]⟩ (by simp) (by decide) (by decide) (by simp) (by simp)
    (by decide)
  exact ⟨h.1, h.2.1⟩
